import Mathlib

/-!
# DvbManager: tuner state machine and PID filter table

Shallow embedding of `jni/DvbManager.cpp`.

* The object state is the record `DvbManager` (the seven data members the
  source file reads and writes).
* Everything the code does to the outside (provider calls through JNI,
  `fcntl`, `ioctl`, `poll`, `read`, `close`, `usleep`) is appended to a log of
  `Event`s carried next to the object in `World`.
* Everything the outside answers (descriptors handed out by the provider,
  results of system calls, clock readings, asynchronous writes of the
  pending-tune flag) is an explicit argument of the operation that asks for it.
* C `int` values are `Int`. Conversions to unsigned types are explicit
  `% 2 ^ w`: the frequency translation of `tuneDVB` (done in `unsigned long`,
  stored in a `uint32_t`), the 16- and 32-bit fields of the kernel
  structures, and the `size_t`, `nfds_t` and `useconds_t` arguments of `read`,
  `poll` and `usleep`.
* The `double` arithmetic of the clock is binary64 with every operation
  rounded to nearest, ties to even (section "Clock").
* The mutex `mFilterLock` is not modelled: every operation runs to completion.
-/

namespace Dvb

/-! ## Constants -/

/-- Constants the source takes from `DvbManager.h`, which is not among the
sources at hand, and the width of `unsigned long` on the target. They are
parameters of the model. -/
structure Config where
  NUM_POLLFDS : Int
  FE_POLL_TIMEOUT_MS : Int
  FE_CONSECUTIVE_LOCK_SUCCESS_COUNT : Int
  DVB_ERROR_RETRY_INTERVAL_MS : Int
  DVB_TUNE_STOP_DELAY_MS : Int
  PAT_PID : Int
  FILTER_TYPE_AUDIO : Int
  FILTER_TYPE_VIDEO : Int
  FILTER_TYPE_PCR : Int
  /-- Number of bits of `unsigned long` (32 on ILP32 targets, 64 on LP64). -/
  ULONG_BITS : Nat
  deriving DecidableEq, Repr

/-- Band threshold, `#define SLOF (11700*1000UL)` (line 35). -/
def SLOF : Int := 11700 * 1000

/-- Low-band local oscillator, `#define LOF1 (9750*1000UL)` (line 36). -/
def LOF1 : Int := 9750 * 1000

/-- High-band local oscillator, `#define LOF2 (10600*1000UL)` (line 37). -/
def LOF2 : Int := 10600 * 1000

/-- The errno value `EINVAL`. -/
def EINVAL : Int := 22

/-- Conversion of a C integer to `unsigned long` of the given width; `size_t`
has the same width on the ILP32 and LP64 targets. -/
def toULong (bits : Nat) (x : Int) : Int := x % 2 ^ bits

/-- Conversion of a C integer to a 32-bit `unsigned int`, the type behind
`useconds_t` and (in bionic) `nfds_t`. -/
def toUInt (x : Int) : Int := x % 2 ^ 32

/-- Conversion of a C integer to a 32-bit `int` (two's complement wrap). -/
def toInt (x : Int) : Int := (x + 2 ^ 31) % 2 ^ 32 - 2 ^ 31

/-! ## Kernel interface types (symbolic) -/

/-- Values of `fe_modulation` the source names, and an indeterminate value for
the local that `tuneDVB` leaves uninitialised. -/
inductive fe_modulation where
  | QPSK | PSK_8 | VSB_8 | QAM_256
  | indeterminate (raw : Nat)
  deriving DecidableEq, Repr

inductive fe_spectral_inversion where
  | INVERSION_OFF | INVERSION_AUTO
  deriving DecidableEq, Repr

inductive fe_sec_voltage where
  | SEC_VOLTAGE_13 | SEC_VOLTAGE_18 | SEC_VOLTAGE_OFF
  deriving DecidableEq, Repr

inductive fe_delivery_system where
  | SYS_UNDEFINED | SYS_DVBS | SYS_DVBS2
  deriving DecidableEq, Repr

inductive fe_code_rate where
  | FEC_NONE | FEC_5_6
  deriving DecidableEq, Repr

inductive fe_rolloff where
  | ROLLOFF_35
  deriving DecidableEq, Repr

inductive fe_pilot where
  | PILOT_AUTO
  deriving DecidableEq, Repr

inductive dmx_pes_type where
  | DMX_PES_AUDIO | DMX_PES_VIDEO | DMX_PES_PCR | DMX_PES_OTHER
  deriving DecidableEq, Repr

/-- The fields of `struct dvb_frontend_parameters` that `tune` fills in. -/
structure dvb_frontend_parameters where
  frequency : Int
  inversion : fe_spectral_inversion
  modulation : fe_modulation
  deriving DecidableEq, Repr

/-- One entry of the `dtv_property` arrays built by `clearDvbCmdSeq` and
`tuneV5`: the command with its `u.data`. -/
inductive dtv_property where
  | DTV_CLEAR
  | DTV_DELIVERY_SYSTEM (data : fe_delivery_system)
  | DTV_FREQUENCY (data : Int)
  | DTV_MODULATION (data : fe_modulation)
  | DTV_SYMBOL_RATE (data : Int)
  | DTV_INNER_FEC (data : fe_code_rate)
  | DTV_VOLTAGE (data : fe_sec_voltage)
  | DTV_INVERSION (data : fe_spectral_inversion)
  | DTV_ROLLOFF (data : fe_rolloff)
  | DTV_PILOT (data : fe_pilot)
  | DTV_TUNE
  deriving DecidableEq, Repr

/-- The fields of `struct dmx_pes_filter_params` set by `startTsPidFilter`;
`input`, `output` and `flags` are the same constants on every call
(`DMX_IN_FRONTEND`, `DMX_OUT_TS_TAP`, `DMX_CHECK_CRC | DMX_IMMEDIATE_START`). -/
structure dmx_pes_filter_params where
  pid : Int
  pes_type : dmx_pes_type
  deriving DecidableEq, Repr

/-- The fields of `struct dmx_sct_filter_params` set by `startSectionFilter`:
`filter0`/`mask0` are `filter.filter[0]` and `filter.mask[0]`; `timeout` is 0
and `flags` is `DMX_IMMEDIATE_START | DMX_CHECK_CRC` on every call. -/
structure dmx_sct_filter_params where
  pid : Int
  filter0 : Int
  mask0 : Int
  deriving DecidableEq, Repr

/-- The `ioctl` requests issued by the source, with their argument. -/
inductive Request where
  | FE_GET_EVENT
  | FE_GET_INFO
  | FE_SET_FRONTEND (p : dvb_frontend_parameters)
  | FE_SET_PROPERTY (props : List dtv_property)
  | DMX_SET_PES_FILTER (f : dmx_pes_filter_params)
  | DMX_SET_FILTER (f : dmx_sct_filter_params)
  deriving DecidableEq, Repr

/-- The three Java accessors of the descriptor provider (`TunerHal`). -/
inductive JavaMethod where
  | openDvbFrontEndFd | openDvbDemuxFd | openDvbDvrFd
  deriving DecidableEq, Repr

/-- The event masks passed to `poll`. -/
inductive PollEvents where
  | POLLIN
  | POLLIN_POLLPRI_POLLERR
  deriving DecidableEq, Repr

/-- One interaction of the code with the outside world. -/
inductive Event where
  /-- The call `env->CallIntMethod(thiz, m)` answered `fd`. -/
  | CallIntMethod (m : JavaMethod) (fd : Int)
  /-- The call `fcntl(fd, F_GETFL)`. -/
  | fcntl_GETFL (fd : Int)
  /-- The call `fcntl(fd, F_SETFL, flags | O_NONBLOCK)`. -/
  | fcntl_SETFL (fd : Int)
  | close (fd : Int)
  /-- The call `poll(&pollFd, nfds, timeout)` with `pollFd.fd = fd`; `nfds` is
  the value received as `nfds_t`. -/
  | poll (fd : Int) (events : PollEvents) (nfds : Int) (timeout : Int)
  | ioctl (fd : Int) (req : Request)
  /-- The call `read(fd, tsBuffer, count)`; `count` is the value received as
  `size_t`. -/
  | read (fd : Int) (count : Int)
  /-- The call `usleep(usec)`; `usec` is the value received as `useconds_t`. -/
  | usleep (usec : Int)
  deriving DecidableEq, Repr

/-! ## Object state -/

/-- Data members of class `DvbManager` used by `DvbManager.cpp`.
`mPidFilters` is the `std::map<int, int>` as its list of (pid, fd) entries in
iteration order. -/
structure DvbManager where
  mFeFd : Int
  mDemuxFd : Int
  mDvrFd : Int
  mPatFilterFd : Int
  mPidFilters : List (Int × Int)
  mFeHasLock : Bool
  mHasPendingTune : Bool
  deriving DecidableEq, Repr

/-- The object together with the log of what it has done to the outside. -/
structure World where
  dvb : DvbManager
  log : List Event
  deriving DecidableEq, Repr

/-- State set up by the constructor's initialiser list (lines 46-52). -/
def DvbManager.init : DvbManager :=
  { mFeFd := -1, mDemuxFd := -1, mDvrFd := -1, mPatFilterFd := -1,
    mPidFilters := [], mFeHasLock := false, mHasPendingTune := false }

/-- A freshly constructed object with an empty log. -/
def World.init : World := { dvb := DvbManager.init, log := [] }

/-- Append one event to the log. -/
def World.emit (w : World) (e : Event) : World := { w with log := w.log ++ [e] }

/-! ## `std::map<int, int>` -/

/-- Lookup `m.find(pid)`: the mapped descriptor, `none` standing for `m.end()`. -/
def mapFind : List (Int × Int) → Int → Option Int
  | [], _ => none
  | (k, v) :: rest, pid => if k = pid then some v else mapFind rest pid

/-- Insertion `m.insert(std::pair<int, int>(pid, fd))`: keeps an existing entry for the
key, otherwise adds the entry at its place in ascending key order. -/
def mapInsert : List (Int × Int) → Int → Int → List (Int × Int)
  | [], pid, fd => [(pid, fd)]
  | (k, v) :: rest, pid, fd =>
    if k = pid then (k, v) :: rest
    else if pid < k then (pid, fd) :: (k, v) :: rest
    else (k, v) :: mapInsert rest pid fd

/-! ## Resource lifecycle (lines 153-201, 256-329) -/

/-- Source `openDvbFeFromSystemApi` (lines 153-157); `fd` is the provider's answer. -/
def openDvbFeFromSystemApi (w : World) (fd : Int) : Int × World :=
  (fd, { w with log := w.log ++
    [Event.CallIntMethod JavaMethod.openDvbFrontEndFd fd, Event.fcntl_GETFL fd, Event.fcntl_SETFL fd] })

/-- Source `openDvbDemuxFromSystemApi` (lines 159-163); `fd` is the provider's answer. -/
def openDvbDemuxFromSystemApi (w : World) (fd : Int) : Int × World :=
  (fd, { w with log := w.log ++
    [Event.CallIntMethod JavaMethod.openDvbDemuxFd fd, Event.fcntl_GETFL fd, Event.fcntl_SETFL fd] })

/-- Source `openDvbDvrFromSystemApi` (lines 165-169); `fd` is the provider's answer. -/
def openDvbDvrFromSystemApi (w : World) (fd : Int) : Int × World :=
  (fd, { w with log := w.log ++
    [Event.CallIntMethod JavaMethod.openDvbDvrFd fd, Event.fcntl_GETFL fd, Event.fcntl_SETFL fd] })

/-- Source `openDvbFe` (lines 171-201). `fromApi` is what the provider answers
if it is asked. The `FE_GET_INFO` query after the open only feeds a log line,
so its answer is not an input of the model. -/
def openDvbFe (w : World) (fromApi : Int) : Int × World :=
  if w.dvb.mFeFd = -1 then
    let r := openDvbFeFromSystemApi w fromApi
    let w1 : World := { r.2 with dvb := { r.2.dvb with mFeFd := r.1 } }
    if r.1 < 0 then (-1, w1)
    else (0, w1.emit (Event.ioctl w1.dvb.mFeFd Request.FE_GET_INFO))
  else (0, w.emit (Event.ioctl w.dvb.mFeFd Request.FE_GET_INFO))

/-- Source `openDvbDvr` (lines 278-284). -/
def openDvbDvr (w : World) (fromApi : Int) : Int × World :=
  let r := openDvbDvrFromSystemApi w fromApi
  let w1 : World := { r.2 with dvb := { r.2.dvb with mDvrFd := r.1 } }
  if r.1 < 0 then (-1, w1) else (0, w1)

/-- Source `openDvbDemux` (lines 285-291). -/
def openDvbDemux (w : World) (fromApi : Int) : Int × World :=
  let r := openDvbDemuxFromSystemApi w fromApi
  let w1 : World := { r.2 with dvb := { r.2.dvb with mDemuxFd := r.1 } }
  if r.1 < 0 then (-1, w1) else (0, w1)

/-- Source `closeDvbFe` (lines 293-298). -/
def closeDvbFe (w : World) : World :=
  if w.dvb.mFeFd ≠ -1 then
    { dvb := { w.dvb with mFeFd := -1 }, log := w.log ++ [Event.close w.dvb.mFeFd] }
  else w

/-- Source `closeDvbDvr` (lines 300-305). -/
def closeDvbDvr (w : World) : World :=
  if w.dvb.mDvrFd ≠ -1 then
    { dvb := { w.dvb with mDvrFd := -1 }, log := w.log ++ [Event.close w.dvb.mDvrFd] }
  else w

/-- Source `closeDvbDemux` (lines 306-311). -/
def closeDvbDemux (w : World) : World :=
  if w.dvb.mDemuxFd ≠ -1 then
    { dvb := { w.dvb with mDemuxFd := -1 }, log := w.log ++ [Event.close w.dvb.mDemuxFd] }
  else w

/-- Source `closeAllDvbPidFilter` (lines 256-267): close every mapped
descriptor in iteration order, clear the map, then `closeDvbDvr`. -/
def closeAllDvbPidFilter (w : World) : World :=
  closeDvbDvr
    { dvb := { w.dvb with mPidFilters := [] },
      log := w.log ++ w.dvb.mPidFilters.map (fun it => Event.close it.2) }

/-- Source `closePatFilter` (lines 269-276). -/
def closePatFilter (w : World) : World :=
  if w.dvb.mPatFilterFd ≠ -1 then
    { dvb := { w.dvb with mPatFilterFd := -1 }, log := w.log ++ [Event.close w.dvb.mPatFilterFd] }
  else w

/-- Source `reset` (lines 314-321). -/
def reset (w : World) : World :=
  closeDvbFe (closePatFilter (closeAllDvbPidFilter (closeDvbDemux (closeDvbDvr
    { w with dvb := { w.dvb with mFeHasLock := false } }))))

/-- Source `resetExceptFe` (lines 323-329). -/
def resetExceptFe (w : World) : World :=
  closePatFilter (closeAllDvbPidFilter (closeDvbDemux (closeDvbDvr
    { w with dvb := { w.dvb with mFeHasLock := false } })))

/-- Source `stopTune` (lines 147-151). -/
def stopTune (cfg : Config) (w : World) : Int × World :=
  (0, (reset w).emit (Event.usleep (toUInt cfg.DVB_TUNE_STOP_DELAY_MS)))

/-- Source `setHasPendingTune` (lines 361-363). -/
def setHasPendingTune (w : World) (hasPendingTune : Bool) : World :=
  { w with dvb := { w.dvb with mHasPendingTune := hasPendingTune } }

/-! ## Filter table (lines 203-254, 514-558) -/

/-- The `switch (filterType)` of `startTsPidFilter` (lines 224-237). -/
def pesTypeOf (cfg : Config) (filterType : Int) : dmx_pes_type :=
  if filterType = cfg.FILTER_TYPE_AUDIO then dmx_pes_type.DMX_PES_AUDIO
  else if filterType = cfg.FILTER_TYPE_VIDEO then dmx_pes_type.DMX_PES_VIDEO
  else if filterType = cfg.FILTER_TYPE_PCR then dmx_pes_type.DMX_PES_PCR
  else dmx_pes_type.DMX_PES_OTHER

/-- Source `startTsPidFilter` (lines 203-254). `demuxFromApi` is what the
provider answers if asked, `setPesFilterResult` what
`ioctl(demuxFd, DMX_SET_PES_FILTER, &filter)` returns if issued. The `pid`
field of the filter is a 16-bit unsigned field. -/
def startTsPidFilter (cfg : Config) (w : World) (pid filterType : Int)
    (demuxFromApi setPesFilterResult : Int) : Int × World :=
  if (mapFind w.dvb.mPidFilters pid).isSome ∨
      (w.dvb.mPatFilterFd ≠ -1 ∧ pid = cfg.PAT_PID) then (0, w)
  else if w.dvb.mHasPendingTune then (-1, w)
  else
    let r := openDvbDemuxFromSystemApi w demuxFromApi
    let demuxFd := r.1
    if demuxFd < 0 then (-1, r.2)
    else
      let filter : dmx_pes_filter_params :=
        { pid := pid % 65536, pes_type := pesTypeOf cfg filterType }
      let w2 := r.2.emit (Event.ioctl demuxFd (Request.DMX_SET_PES_FILTER filter))
      if setPesFilterResult ≠ 0 then (-1, w2.emit (Event.close demuxFd))
      else if pid ≠ cfg.PAT_PID then
        (0, { w2 with dvb := { w2.dvb with
                mPidFilters := mapInsert w2.dvb.mPidFilters pid demuxFd } })
      else (0, { w2 with dvb := { w2.dvb with mPatFilterFd := demuxFd } })

/-- Source `startSectionFilter` (lines 514-558). `demuxFromApi` is the
provider's answer, `setFilterResult` what
`ioctl(mDemuxFd, DMX_SET_FILTER, &sctfilter)` returns. -/
def startSectionFilter (cfg : Config) (w : World) (pid tid : Int)
    (demuxFromApi setFilterResult : Int) : Int × World :=
  if w.dvb.mHasPendingTune then (-1, w)
  else
    let r := openDvbDemux w demuxFromApi
    if r.1 < 0 then (-1, r.2)
    else
      let w1 := r.2
      let sctfilter : dmx_sct_filter_params :=
        if tid < 256 ∧ tid > 0 then { pid := pid % 65536, filter0 := tid % 256, mask0 := 255 }
        else { pid := pid % 65536, filter0 := 0, mask0 := 0 }
      let w2 := w1.emit (Event.ioctl w1.dvb.mDemuxFd (Request.DMX_SET_FILTER sctfilter))
      let w3 := if setFilterResult = -1 then w2.emit (Event.close w2.dvb.mDemuxFd) else w2
      if pid ≠ cfg.PAT_PID then
        (0, { w3 with dvb := { w3.dvb with
                mPidFilters := mapInsert w3.dvb.mPidFilters pid w3.dvb.mDemuxFd } })
      else (0, { w3 with dvb := { w3.dvb with mPatFilterFd := w3.dvb.mDemuxFd } })

/-! ## Stream reader (lines 331-359) -/

/-- Source `readTsStream` (lines 331-359). `dvrFromApi`, `demuxFromApi` are
the provider's answers if asked; `poll_result` and `revents_POLLERR` are what
`poll` reports; `readResult` is the `ssize_t` that `read` returns, converted to
the `int` result. `tsBufferSize` is converted to the `size_t` parameter of
`read`. The bytes that `read` stores in `tsBuffer` are not modelled. -/
def readTsStream (cfg : Config) (w : World) (tsBufferSize timeout_ms : Int)
    (dvrFromApi demuxFromApi poll_result : Int) (revents_POLLERR : Bool)
    (readResult : Int) : Int × World :=
  if w.dvb.mFeHasLock = false then
    (-1, w.emit (Event.usleep (toUInt cfg.DVB_ERROR_RETRY_INTERVAL_MS)))
  else
    let w1 := if w.dvb.mDvrFd = -1 then (openDvbDvr w dvrFromApi).2 else w
    let w2 := if w1.dvb.mDemuxFd = -1 then (openDvbDemux w1 demuxFromApi).2 else w1
    let w3 := w2.emit (Event.poll w2.dvb.mDvrFd PollEvents.POLLIN_POLLPRI_POLLERR
                (toUInt cfg.NUM_POLLFDS) timeout_ms)
    if poll_result = 0 then (0, w3)
    else if poll_result = -1 ∨ revents_POLLERR = true then
      (-1, (closeDvbDvr w3).emit (Event.usleep (toUInt cfg.DVB_ERROR_RETRY_INTERVAL_MS)))
    else (toInt readResult,
      w3.emit (Event.read w3.dvb.mDvrFd (toULong cfg.ULONG_BITS tsBufferSize)))

/-! ## Frontend tuning engine (lines 40-44, 67-145, 366-512) -/

/-- What `gettimeofday` stores. -/
structure timeval where
  tv_sec : Int
  tv_usec : Int
  deriving DecidableEq, Repr

/-! ### Clock

Binary64 values are kept as integers in units of `2 ^ (-62)`. Every value the
clock computes is a whole number of such units: integers, the quotient of a
non-zero integer by 1000 (at least 0.001 in magnitude, so its last place is at
least `2 ^ (-62)`), and their rounded sums and differences. Magnitudes stay
far below the overflow threshold (64-bit seconds times 1000). For seconds
below `2 ^ 53 / 1000` the product `tv_sec * 1000.0` is exact, so a fused
multiply-add gives the same sum. -/

/-- A finite binary64 value, as the integer `value * 2 ^ 62`. -/
structure double where
  scaled : Int
  deriving DecidableEq, Repr

/-- The least `k` (at most `fuel`) with `n / (d * 2 ^ k) < 2 ^ 53`: the number
of low bits a 53-bit significand cannot hold. -/
def roundShift : Nat → Nat → Nat → Nat
  | 0, _, _ => 0
  | fuel + 1, n, d => if n / d < 2 ^ 53 then 0 else roundShift fuel n (2 * d) + 1

/-- Round the rational `a / b` (in units, `b > 0`) to the nearest value with a
53-bit significand, ties to even. The quotient is cut at the place `2 ^ k` of
the last significand bit and rounded there; `k` is 0 when the quotient is
below `2 ^ 53` units. This is the binary64 result whenever the quotient is at
least `2 ^ 52` units in magnitude (at least `2 ^ (-10)` as a value) or is a
whole number of units below `2 ^ 53`. -/
def roundNearestEven (a : Int) (b : Nat) : Int :=
  let n := a.natAbs
  let k := roundShift 2048 n b
  let d := b * 2 ^ k
  let q := n / d
  let r := n % d
  let q1 := if 2 * r > d ∨ (2 * r = d ∧ q % 2 = 1) then q + 1 else q
  if a < 0 then -((q1 * 2 ^ k : Nat) : Int) else ((q1 * 2 ^ k : Nat) : Int)

/-- Conversion of a C integer to `double`. -/
def double.ofInt (i : Int) : double := ⟨roundNearestEven (i * 2 ^ 62) 1⟩

/-- Binary64 addition (of whole numbers of units the sum is one too, so the
rounding is the binary64 one for all arguments). -/
def double.add (x y : double) : double := ⟨roundNearestEven (x.scaled + y.scaled) 1⟩

/-- Binary64 subtraction (as for addition, for all arguments). -/
def double.sub (x y : double) : double := ⟨roundNearestEven (x.scaled - y.scaled) 1⟩

/-- Binary64 multiplication, for products that are zero or at least
`2 ^ (-10)` in magnitude; used for `tv_sec * 1000.0`, an integer. -/
def double.mul (x y : double) : double := ⟨roundNearestEven (x.scaled * y.scaled) (2 ^ 62)⟩

/-- Binary64 division by a non-zero value, for quotients that are zero or at
least `2 ^ (-10)` in magnitude; used for `tv_usec / 1000.0`, which is zero or
at least 0.001 in magnitude. -/
def double.div (x y : double) : double :=
  ⟨roundNearestEven (if y.scaled < 0 then -(x.scaled * 2 ^ 62) else x.scaled * 2 ^ 62)
    y.scaled.natAbs⟩

/-- Binary64 comparison `x < y`. -/
def double.lt (x y : double) : Bool := decide (x.scaled < y.scaled)

/-- Source `currentTimeMillis` (lines 40-44): the double
`tv.tv_sec * 1000.0 + tv.tv_usec / 1000.0`, for the `timeval` that
`gettimeofday` stored. -/
def currentTimeMillis (tv : timeval) : double :=
  double.add (double.mul (double.ofInt tv.tv_sec) (double.ofInt 1000))
    (double.div (double.ofInt tv.tv_usec) (double.ofInt 1000))

/-- The loop condition `currentTimeMillis() - tuneClock < timeout_ms` of lines
123 and 490, where `now` is what `gettimeofday` stores at this evaluation,
`tuneClock` is the double saved before the loop and `timeout_ms` is an `int`
converted to `double`. -/
def loopCondition (tuneClock : double) (now : timeval) (timeout_ms : Int) : Bool :=
  double.lt (double.sub (currentTimeMillis now) tuneClock) (double.ofInt timeout_ms)

/-- What the frontend answers to one `isFeLocked`: the result of `poll`, the
`POLLIN` bit of `revents`, the result of `ioctl(FE_GET_EVENT)` and the
`FE_HAS_LOCK` bit of the event status. -/
structure FeSample where
  poll_result : Int
  revents_POLLIN : Bool
  get_event_result : Int
  status_FE_HAS_LOCK : Bool
  deriving DecidableEq, Repr

/-- Source `isFeLocked` (lines 67-81). -/
def isFeLocked (cfg : Config) (w : World) (s : FeSample) : Bool × World :=
  let w1 := w.emit (Event.poll w.dvb.mFeFd PollEvents.POLLIN (toUInt cfg.NUM_POLLFDS)
    cfg.FE_POLL_TIMEOUT_MS)
  if s.poll_result > 0 ∧ s.revents_POLLIN = true then
    let w2 := w1.emit (Event.ioctl w.dvb.mFeFd Request.FE_GET_EVENT)
    if s.get_event_result = 0 then (s.status_FE_HAS_LOCK, w2) else (false, w2)
  else (false, w1)

/-- What the outside supplies for one evaluation of the polling loop's
condition and the iteration that follows it: the clock reading at the
condition, a call of `setHasPendingTune` from another thread landing before the
iteration reads the flag (if any), and the frontend's answer to `isFeLocked`. -/
structure Tick where
  now : timeval
  setHasPendingTune : Option Bool
  fe : FeSample
  deriving DecidableEq, Repr

/-- Apply the asynchronous flag write carried by a tick. -/
def Tick.deliver (t : Tick) (w : World) : World :=
  match t.setHasPendingTune with
  | some b => Dvb.setHasPendingTune w b
  | none => w

/-- Result of running `tune`/`tuneDVB` against a finite supply of ticks:
the call returned `ret`, or the supply ended with the call still at the head
of its polling loop. -/
inductive Outcome where
  | returned (ret : Int) (w : World)
  | running (w : World) (lockSuccessCount : Int)
  deriving DecidableEq, Repr

/-- The polling loop of `tune` (lines 121-144), from its head with the given
`lockSuccessCount`. `dvrFromApi` is the provider's answer for the DVR. -/
def tune_lockLoop (cfg : Config) (tuneClock : double) (timeout_ms dvrFromApi : Int) :
    World → Int → List Tick → Outcome
  | w, lockSuccessCount, [] => Outcome.running w lockSuccessCount
  | w, lockSuccessCount, t :: rest =>
    if loopCondition tuneClock t.now timeout_ms = true then
      let wa := t.deliver w
      if wa.dvb.mHasPendingTune = true then
        Outcome.returned 0 { wa with dvb := { wa.dvb with mFeHasLock := true } }
      else
        let r := isFeLocked cfg wa t.fe
        let count := if r.1 = true then lockSuccessCount + 1 else 0
        if count ≥ cfg.FE_CONSECUTIVE_LOCK_SUCCESS_COUNT then
          Outcome.returned 0
            (openDvbDvr { r.2 with dvb := { r.2.dvb with mFeHasLock := true } } dvrFromApi).2
        else tune_lockLoop cfg tuneClock timeout_ms dvrFromApi r.2 count rest
    else Outcome.returned (-1) w

/-- What the outside supplies to one call of `tune`. -/
structure TuneEnv where
  feFromApi : Int
  dvrFromApi : Int
  /-- Result of the capability query `ioctl(mFeFd, FE_GET_INFO, &feInfo)`. -/
  getInfoResult : Int
  caps_FE_CAN_INVERSION_AUTO : Bool
  /-- Result of `ioctl(mFeFd, FE_SET_FRONTEND, &feParams)`. -/
  setFrontendResult : Int
  /-- What `gettimeofday` stores when `tuneClock` is taken before the loop. -/
  tuneClock : timeval
  deriving DecidableEq, Repr

/-- Source `tune` (lines 83-145). `feParams.frequency` is a 32-bit unsigned
field. `ticks` is what the outside supplies to the polling loop, one element
per evaluation of the loop condition. -/
def tune (cfg : Config) (w : World) (frequency : Int) (modulationStr : String)
    (timeout_ms : Int) (env : TuneEnv) (ticks : List Tick) : Outcome :=
  let w0 := resetExceptFe w
  if modulationStr ≠ "8VSB" ∧ modulationStr ≠ "QAM256" then Outcome.returned (-1) w0
  else
    let modulation :=
      if modulationStr = "8VSB" then fe_modulation.VSB_8 else fe_modulation.QAM_256
    if w0.dvb.mHasPendingTune = true then Outcome.returned (-1) w0
    else
      let r := openDvbFe w0 env.feFromApi
      if r.1 ≠ 0 then Outcome.returned (-1) r.2
      else
        let w1 := r.2.emit (Event.ioctl r.2.dvb.mFeFd Request.FE_GET_INFO)
        let inversion :=
          if env.getInfoResult ≠ -1 ∧ env.caps_FE_CAN_INVERSION_AUTO = false then
            fe_spectral_inversion.INVERSION_OFF
          else fe_spectral_inversion.INVERSION_AUTO
        let feParams : dvb_frontend_parameters :=
          { frequency := frequency % 2 ^ 32, inversion := inversion, modulation := modulation }
        let w2 := w1.emit (Event.ioctl w1.dvb.mFeFd (Request.FE_SET_FRONTEND feParams))
        if env.setFrontendResult ≠ 0 then Outcome.returned (-1) w2
        else tune_lockLoop cfg (currentTimeMillis env.tuneClock) timeout_ms env.dvrFromApi w2 0 ticks

/-- Source `clearDvbCmdSeq` (lines 366-383); `result` is what
`ioctl(mFeFd, FE_SET_PROPERTY, &cmdseq)` returns. -/
def clearDvbCmdSeq (w : World) (result : Int) : Int × World :=
  let w1 := w.emit (Event.ioctl w.dvb.mFeFd (Request.FE_SET_PROPERTY [dtv_property.DTV_CLEAR]))
  if result = -1 then (-1, w1) else (0, w1)

/-- Source `tuneV5` (lines 385-421). `staleEvents` is the number of times
`ioctl(mFeFd, FE_GET_EVENT, &ev)` answers something other than -1 before it
answers -1 (the drain loop of lines 407-410 is taken to end);
`setPropertyResult` is what `ioctl(mFeFd, FE_SET_PROPERTY, &cmdseq)` returns
if issued. -/
def tuneV5 (w : World) (ifreq sr : Int) (delsys : fe_delivery_system)
    (modulation : fe_modulation) (v : fe_sec_voltage) (fec : fe_code_rate)
    (rolloff : fe_rolloff) (staleEvents : Nat) (setPropertyResult : Int) : Int × World :=
  let p : List dtv_property :=
    [ dtv_property.DTV_DELIVERY_SYSTEM delsys,
      dtv_property.DTV_FREQUENCY ifreq,
      dtv_property.DTV_MODULATION modulation,
      dtv_property.DTV_SYMBOL_RATE sr,
      dtv_property.DTV_INNER_FEC fec,
      dtv_property.DTV_VOLTAGE v,
      dtv_property.DTV_INVERSION fe_spectral_inversion.INVERSION_AUTO,
      dtv_property.DTV_ROLLOFF rolloff,
      dtv_property.DTV_PILOT fe_pilot.PILOT_AUTO,
      dtv_property.DTV_TUNE ]
  let drained := List.replicate (staleEvents + 1) (Event.ioctl w.dvb.mFeFd Request.FE_GET_EVENT)
  let w1 : World := { w with log := w.log ++ drained }
  if delsys ≠ fe_delivery_system.SYS_DVBS ∧ delsys ≠ fe_delivery_system.SYS_DVBS2 then
    (-EINVAL, w1)
  else
    let w2 := w1.emit (Event.ioctl w1.dvb.mFeFd (Request.FE_SET_PROPERTY p))
    if setPropertyResult = -1 then (-1, w2) else (0, w2)

/-- The frequency translation of `tuneDVB` (lines 436-448): `frequency` is an
`int`, the three constants are `unsigned long`, so every comparison and
subtraction is done in `unsigned long` after converting `frequency`, and the
result is stored in the `uint32_t real_frequency`. -/
def real_frequency (bits : Nat) (frequency : Int) : Int :=
  let f := toULong bits frequency
  let hiband : Int := if f ≥ SLOF then 1 else 0
  if hiband ≠ 0 then toULong bits (f - LOF2) % 2 ^ 32
  else if f < LOF1 then toULong bits (LOF1 - f) % 2 ^ 32
  else toULong bits (f - LOF1) % 2 ^ 32

/-- The polling loop of `tuneDVB` (lines 488-511), the same text as the loop
of `tune`. -/
def tuneDVB_lockLoop (cfg : Config) (tuneClock : double) (timeout_ms dvrFromApi : Int) :
    World → Int → List Tick → Outcome
  | w, lockSuccessCount, [] => Outcome.running w lockSuccessCount
  | w, lockSuccessCount, t :: rest =>
    if loopCondition tuneClock t.now timeout_ms = true then
      let wa := t.deliver w
      if wa.dvb.mHasPendingTune = true then
        Outcome.returned 0 { wa with dvb := { wa.dvb with mFeHasLock := true } }
      else
        let r := isFeLocked cfg wa t.fe
        let count := if r.1 = true then lockSuccessCount + 1 else 0
        if count ≥ cfg.FE_CONSECUTIVE_LOCK_SUCCESS_COUNT then
          Outcome.returned 0
            (openDvbDvr { r.2 with dvb := { r.2.dvb with mFeHasLock := true } } dvrFromApi).2
        else tuneDVB_lockLoop cfg tuneClock timeout_ms dvrFromApi r.2 count rest
    else Outcome.returned (-1) w

/-- What the outside supplies to one call of `tuneDVB`. -/
structure TuneDvbEnv where
  feFromApi : Int
  dvrFromApi : Int
  /-- Result of the `FE_SET_PROPERTY` issued by `clearDvbCmdSeq`. -/
  clearResult : Int
  /-- Number of stale frontend events drained by `tuneV5`. -/
  staleEvents : Nat
  /-- Result of the `FE_SET_PROPERTY` issued by `tuneV5`. -/
  setPropertyResult : Int
  /-- Content of the uninitialised local `modulation`. -/
  modulationGarbage : Nat
  /-- What `gettimeofday` stores when `tuneClock` is taken before the loop. -/
  tuneClock : timeval
  deriving DecidableEq, Repr

/-- The state and programming result of `tuneDVB` up to and including its call
of `tuneV5` (lines 425-484), or the early return. The parameter
`const double rolloff` is never read by the source and is left out. -/
def tuneDVB_program (cfg : Config) (w : World) (deliverysystem frequency : Int)
    (polarizationStr : String) (symbolrate : Int) (fecStr modulationStr : String)
    (env : TuneDvbEnv) : Except (Int × World) (Int × World) :=
  let w0 := resetExceptFe w
  if w0.dvb.mHasPendingTune = true then Except.error (-1, w0)
  else
    let r := openDvbFe w0 env.feFromApi
    if r.1 ≠ 0 then Except.error (-1, r.2)
    else
      let w1 := (clearDvbCmdSeq r.2 env.clearResult).2
      let voltage :=
        if (polarizationStr.toList.head?.map Char.toUpper) = some 'V' then
          fe_sec_voltage.SEC_VOLTAGE_13
        else fe_sec_voltage.SEC_VOLTAGE_18
      let delsys :=
        if deliverysystem = 2 then fe_delivery_system.SYS_DVBS
        else fe_delivery_system.SYS_DVBS2
      let modulation :=
        if modulationStr = "QPSK" then fe_modulation.QPSK
        else if modulationStr = "8PSK" then fe_modulation.PSK_8
        else fe_modulation.indeterminate env.modulationGarbage
      let fec := if fecStr = "5/6" then fe_code_rate.FEC_5_6 else fe_code_rate.FEC_NONE
      Except.ok (tuneV5 w1 (real_frequency cfg.ULONG_BITS frequency) (symbolrate % 2 ^ 32)
        delsys modulation voltage fec fe_rolloff.ROLLOFF_35 env.staleEvents
        env.setPropertyResult)

/-- Source `tuneDVB` (lines 423-512): the value returned by `tuneV5` is
dropped (line 484 is an expression statement) and the polling loop follows.
`ticks` is what the outside supplies to the polling loop. -/
def tuneDVB (cfg : Config) (w : World) (deliverysystem frequency : Int)
    (polarizationStr : String) (symbolrate : Int) (fecStr modulationStr : String)
    (timeout_ms : Int) (env : TuneDvbEnv) (ticks : List Tick) : Outcome :=
  match tuneDVB_program cfg w deliverysystem frequency polarizationStr symbolrate fecStr
      modulationStr env with
  | Except.error r => Outcome.returned r.1 r.2
  | Except.ok r =>
    tuneDVB_lockLoop cfg (currentTimeMillis env.tuneClock) timeout_ms env.dvrFromApi r.2 0 ticks

/-! ## Auxiliary definitions for the statements -/

/-- Number of `close(fd)` calls recorded in a log. -/
def closeCount (fd : Int) (log : List Event) : Nat :=
  log.count (Event.close fd)

/-- Number of times the provider handed out `fd` in a log. -/
def handedOutCount (fd : Int) (log : List Event) : Nat :=
  (log.filter (fun e => match e with
    | Event.CallIntMethod _ got => decide (got = fd)
    | _ => false)).length

/-- Number of calls made to the descriptor provider in a log. -/
def providerCalls (log : List Event) : Nat :=
  (log.filter (fun e => match e with
    | Event.CallIntMethod _ _ => true
    | _ => false)).length

/-- The value `isFeLocked` returns for a frontend answer (it does not depend
on the object state). -/
def lockStatus (cfg : Config) (s : FeSample) : Bool := (isFeLocked cfg World.init s).1

/-- A configuration for concrete runs. -/
def sampleConfig : Config :=
  { NUM_POLLFDS := 1, FE_POLL_TIMEOUT_MS := 100, FE_CONSECUTIVE_LOCK_SUCCESS_COUNT := 2,
    DVB_ERROR_RETRY_INTERVAL_MS := 100000, DVB_TUNE_STOP_DELAY_MS := 100000,
    PAT_PID := 0, FILTER_TYPE_AUDIO := 1, FILTER_TYPE_VIDEO := 2, FILTER_TYPE_PCR := 3,
    ULONG_BITS := 64 }

/-- A state with every handle open, two general filters, a PAT filter and lock. -/
def sampleWorld : World :=
  { dvb := { mFeFd := 3, mDemuxFd := 4, mDvrFd := 5, mPatFilterFd := 6,
             mPidFilters := [(17, 7), (256, 8)], mFeHasLock := true,
             mHasPendingTune := false },
    log := [] }

/-- Environment of a `tune` call in which the provider hands out 3 for the
frontend and 5 for the DVR, and both frontend ioctls succeed. -/
def sampleTuneEnv : TuneEnv :=
  { feFromApi := 3, dvrFromApi := 5, getInfoResult := 0, caps_FE_CAN_INVERSION_AUTO := true,
    setFrontendResult := 0, tuneClock := { tv_sec := 1000, tv_usec := 0 } }

/-- Environment of a `tuneDVB` call in which the provider hands out 3 for the
frontend and 5 for the DVR, and both property ioctls succeed. -/
def sampleTuneDvbEnv : TuneDvbEnv :=
  { feFromApi := 3, dvrFromApi := 5, clearResult := 0, staleEvents := 0,
    setPropertyResult := 0, modulationGarbage := 0,
    tuneClock := { tv_sec := 1000, tv_usec := 0 } }

/-- A tick whose clock reads `usec` microseconds after second 1000 and at which
the frontend reports no lock. -/
def tickUnlocked (usec : Int) : Tick :=
  { now := { tv_sec := 1000 + usec / 1000000, tv_usec := usec % 1000000 }, setHasPendingTune := none,
    fe := { poll_result := 0, revents_POLLIN := false, get_event_result := 0,
            status_FE_HAS_LOCK := false } }

/-- A tick whose clock reads `usec` microseconds after second 1000 and at which
the frontend reports lock. -/
def tickLocked (usec : Int) : Tick :=
  { now := { tv_sec := 1000 + usec / 1000000, tv_usec := usec % 1000000 }, setHasPendingTune := none,
    fe := { poll_result := 1, revents_POLLIN := true, get_event_result := 0,
            status_FE_HAS_LOCK := true } }

/-- A tick whose clock reads `usec` microseconds after second 1000 and before
which another thread called `setHasPendingTune(true)`. -/
def tickPending (usec : Int) : Tick :=
  { now := { tv_sec := 1000 + usec / 1000000, tv_usec := usec % 1000000 }, setHasPendingTune := some true,
    fe := { poll_result := 0, revents_POLLIN := false, get_event_result := 0,
            status_FE_HAS_LOCK := false } }

/-- The environment `sampleTuneDvbEnv` with the `FE_SET_PROPERTY` of `tuneV5`
rejected by the driver. -/
def failingTuneDvbEnv : TuneDvbEnv := { sampleTuneDvbEnv with setPropertyResult := -1 }

/-- Four in-time ticks whose lock statuses are unlocked, locked, unlocked,
locked: no two consecutive locked samples. -/
def sampleTicks : List Tick :=
  [tickUnlocked 100, tickLocked 200, tickUnlocked 300, tickLocked 400]

/-- The state of `tune sampleConfig World.init 500000000 "8VSB" 1000
sampleTuneEnv` at the head of its loop after the ticks `sampleTicks`. -/
def sampleLoopWorld : World :=
  { dvb := { mFeFd := 3, mDemuxFd := -1, mDvrFd := -1, mPatFilterFd := -1, mPidFilters := [],
             mFeHasLock := false, mHasPendingTune := false },
    log :=
      [ Event.CallIntMethod JavaMethod.openDvbFrontEndFd 3,
        Event.fcntl_GETFL 3,
        Event.fcntl_SETFL 3,
        Event.ioctl 3 Request.FE_GET_INFO,
        Event.ioctl 3 Request.FE_GET_INFO,
        Event.ioctl 3 (Request.FE_SET_FRONTEND
          { frequency := 500000000, inversion := fe_spectral_inversion.INVERSION_AUTO,
            modulation := fe_modulation.VSB_8 }),
        Event.poll 3 PollEvents.POLLIN 1 100,
        Event.poll 3 PollEvents.POLLIN 1 100,
        Event.ioctl 3 Request.FE_GET_EVENT,
        Event.poll 3 PollEvents.POLLIN 1 100,
        Event.poll 3 PollEvents.POLLIN 1 100,
        Event.ioctl 3 Request.FE_GET_EVENT ] }

/-- The state of `tuneDVB sampleConfig World.init 2 12000000 "v" 27500000
"5/6" "QPSK" 1000 sampleTuneDvbEnv` at the head of its loop after the ticks
`sampleTicks`. -/
def sampleDvbLoopWorld : World :=
  { dvb := { mFeFd := 3, mDemuxFd := -1, mDvrFd := -1, mPatFilterFd := -1, mPidFilters := [],
             mFeHasLock := false, mHasPendingTune := false },
    log :=
      [ Event.CallIntMethod JavaMethod.openDvbFrontEndFd 3,
        Event.fcntl_GETFL 3,
        Event.fcntl_SETFL 3,
        Event.ioctl 3 Request.FE_GET_INFO,
        Event.ioctl 3 (Request.FE_SET_PROPERTY [dtv_property.DTV_CLEAR]),
        Event.ioctl 3 Request.FE_GET_EVENT,
        Event.ioctl 3 (Request.FE_SET_PROPERTY
          [ dtv_property.DTV_DELIVERY_SYSTEM fe_delivery_system.SYS_DVBS,
            dtv_property.DTV_FREQUENCY 1400000,
            dtv_property.DTV_MODULATION fe_modulation.QPSK,
            dtv_property.DTV_SYMBOL_RATE 27500000,
            dtv_property.DTV_INNER_FEC fe_code_rate.FEC_5_6,
            dtv_property.DTV_VOLTAGE fe_sec_voltage.SEC_VOLTAGE_13,
            dtv_property.DTV_INVERSION fe_spectral_inversion.INVERSION_AUTO,
            dtv_property.DTV_ROLLOFF fe_rolloff.ROLLOFF_35,
            dtv_property.DTV_PILOT fe_pilot.PILOT_AUTO,
            dtv_property.DTV_TUNE ]),
        Event.poll 3 PollEvents.POLLIN 1 100,
        Event.poll 3 PollEvents.POLLIN 1 100,
        Event.ioctl 3 Request.FE_GET_EVENT,
        Event.poll 3 PollEvents.POLLIN 1 100,
        Event.poll 3 PollEvents.POLLIN 1 100,
        Event.ioctl 3 Request.FE_GET_EVENT ] }

/-- The state in which `tune sampleConfig World.init 500000000 "8VSB" 1000
sampleTuneEnv` returns 0 after two locked samples: frontend 3 and DVR 5 open,
lock held. -/
def lockedWorld : World :=
  { dvb := { mFeFd := 3, mDemuxFd := -1, mDvrFd := 5, mPatFilterFd := -1, mPidFilters := [],
             mFeHasLock := true, mHasPendingTune := false },
    log :=
      [ Event.CallIntMethod JavaMethod.openDvbFrontEndFd 3,
        Event.fcntl_GETFL 3,
        Event.fcntl_SETFL 3,
        Event.ioctl 3 Request.FE_GET_INFO,
        Event.ioctl 3 Request.FE_GET_INFO,
        Event.ioctl 3 (Request.FE_SET_FRONTEND
          { frequency := 500000000, inversion := fe_spectral_inversion.INVERSION_AUTO,
            modulation := fe_modulation.VSB_8 }),
        Event.poll 3 PollEvents.POLLIN 1 100,
        Event.ioctl 3 Request.FE_GET_EVENT,
        Event.poll 3 PollEvents.POLLIN 1 100,
        Event.ioctl 3 Request.FE_GET_EVENT,
        Event.CallIntMethod JavaMethod.openDvbDvrFd 5,
        Event.fcntl_GETFL 5,
        Event.fcntl_SETFL 5 ] }

/-- The state after a `readTsStream` on `lockedWorld` that lazily opened the
demux handle (the provider handing out 4) and whose `poll` timed out. -/
def demuxOpenWorld : World :=
  (readTsStream sampleConfig lockedWorld 188 100 5 4 0 false 0).2

/-! ## Lemmas -/

theorem mapFind_isSome_of_mem (m : List (Int × Int)) (pid fd : Int) (h : (pid, fd) ∈ m) :
    (mapFind m pid).isSome = true := by
  induction m with
  | nil => simp at h
  | cons e rest ih =>
    obtain ⟨k, v⟩ := e
    by_cases hk : k = pid
    · simp [mapFind, hk]
    · have hm : (pid, fd) ∈ rest := by
        rcases List.mem_cons.mp h with h1 | h1
        · exact absurd (congrArg Prod.fst h1).symm hk
        · exact h1
      simp [mapFind, hk, ih hm]

/-! ## Theorems -/

/-- C3: for every state and every pid already present in the general filter
table, `startTsPidFilter` (any filter type, any value of the pending-tune
flag, whatever the provider and the driver would answer) returns 0 and changes
nothing: the object, hence the table, its size and the descriptor stored for
the pid, is the same, and the log is the same, so no descriptor was opened. -/
theorem startTsPidFilter_present_noop (cfg : Config) (w : World) (pid fd filterType : Int)
    (demuxFromApi setPesFilterResult : Int) (h : (pid, fd) ∈ w.dvb.mPidFilters) :
    startTsPidFilter cfg w pid filterType demuxFromApi setPesFilterResult = (0, w) ∧
    (startTsPidFilter cfg w pid filterType demuxFromApi setPesFilterResult).2.dvb.mPidFilters.length
      = w.dvb.mPidFilters.length ∧
    mapFind (startTsPidFilter cfg w pid filterType demuxFromApi setPesFilterResult).2.dvb.mPidFilters
      pid = mapFind w.dvb.mPidFilters pid ∧
    providerCalls (startTsPidFilter cfg w pid filterType demuxFromApi setPesFilterResult).2.log
      = providerCalls w.log := by
  have e : startTsPidFilter cfg w pid filterType demuxFromApi setPesFilterResult = (0, w) := by
    simp [startTsPidFilter, mapFind_isSome_of_mem _ _ _ h]
  simp [e]

/-- Instance of C3 at `sampleWorld`, pid 17. -/
theorem startTsPidFilter_present_noop_witness :
    (17, 7) ∈ sampleWorld.dvb.mPidFilters ∧
    startTsPidFilter sampleConfig sampleWorld 17 2 9 0 = (0, sampleWorld) :=
  ⟨by decide, (startTsPidFilter_present_noop sampleConfig sampleWorld 17 7 2 9 0 (by decide)).1⟩

/-- C4: `closeAllDvbPidFilter` leaves `mPatFilterFd` as it was, and
`closePatFilter` leaves `mPidFilters` as it was, in every state. -/
theorem close_filters_frame (w : World) :
    (closeAllDvbPidFilter w).dvb.mPatFilterFd = w.dvb.mPatFilterFd ∧
    (closePatFilter w).dvb.mPidFilters = w.dvb.mPidFilters := by
  constructor
  · unfold closeAllDvbPidFilter closeDvbDvr
    split_ifs <;> rfl
  · unfold closePatFilter
    split_ifs <;> rfl

/-- C9: in every state with `mFeHasLock = false`, `readTsStream` returns -1,
leaves the object (all handles and the filter table) unchanged, and the only
thing it does is the `usleep`: no provider call, `poll`, `read` or `close`. -/
theorem readTsStream_not_locked (cfg : Config) (w : World) (tsBufferSize timeout_ms : Int)
    (dvrFromApi demuxFromApi poll_result : Int) (revents_POLLERR : Bool) (readResult : Int)
    (h : w.dvb.mFeHasLock = false) :
    readTsStream cfg w tsBufferSize timeout_ms dvrFromApi demuxFromApi poll_result
        revents_POLLERR readResult
      = (-1, { dvb := w.dvb,
               log := w.log ++ [Event.usleep (toUInt cfg.DVB_ERROR_RETRY_INTERVAL_MS)] }) := by
  simp [readTsStream, h, World.emit]

/-- Instance of C9 at the freshly constructed object. -/
theorem readTsStream_not_locked_witness :
    World.init.dvb.mFeHasLock = false ∧
    readTsStream sampleConfig World.init 188 100 5 4 1 false 188
      = (-1, { dvb := World.init.dvb, log := [Event.usleep 100000] }) :=
  ⟨by decide, readTsStream_not_locked sampleConfig World.init 188 100 5 4 1 false 188 (by decide)⟩

/-- C10: `reset` is idempotent. For every state, a second `reset` gives the
same object and the same log as the first (so it closes nothing), and after a
`reset` the four handles are -1, the filter table is empty and `mFeHasLock` is
false. -/
theorem reset_idempotent (w : World) :
    reset (reset w) = reset w ∧
    (reset (reset w)).log = (reset w).log ∧
    (reset w).dvb.mFeFd = -1 ∧ (reset w).dvb.mDemuxFd = -1 ∧ (reset w).dvb.mDvrFd = -1 ∧
    (reset w).dvb.mPatFilterFd = -1 ∧ (reset w).dvb.mPidFilters = [] ∧
    (reset w).dvb.mFeHasLock = false := by
  have hfields : (reset w).dvb.mFeFd = -1 ∧ (reset w).dvb.mDemuxFd = -1 ∧
      (reset w).dvb.mDvrFd = -1 ∧ (reset w).dvb.mPatFilterFd = -1 ∧
      (reset w).dvb.mPidFilters = [] ∧ (reset w).dvb.mFeHasLock = false := by
    simp only [reset, closeDvbFe, closePatFilter, closeAllDvbPidFilter, closeDvbDemux, closeDvbDvr]
    split_ifs <;> simp_all
  obtain ⟨h1, h2, h3, h4, h5, h6⟩ := hfields
  have hidem : reset (reset w) = reset w := by
    generalize reset w = v at h1 h2 h3 h4 h5 h6
    obtain ⟨⟨a, b, c, d, e, f, g⟩, l⟩ := v
    simp only at h1 h2 h3 h4 h5 h6
    subst h1 h2 h3 h4 h5 h6
    simp [reset, closeDvbFe, closePatFilter, closeAllDvbPidFilter, closeDvbDemux, closeDvbDvr]
  exact ⟨hidem, by rw [hidem], h1, h2, h3, h4, h5, h6⟩

/-- C5 (as stated, refuted): the frequency -1 is below `LOF1`, yet the value
handed to the programming step is not `9750000 - (-1)`: converted to
`unsigned long` it compares above `SLOF`, the high-band branch is taken and
the stored value is 4284367295, for both widths of `unsigned long`. -/
theorem real_frequency_negative_counterexample :
    (-1 : Int) < 9750000 ∧
    real_frequency 32 (-1) ≠ 9750000 - (-1) ∧
    real_frequency 64 (-1) ≠ 9750000 - (-1) ∧
    real_frequency 32 (-1) = 4284367295 ∧
    real_frequency 64 (-1) = 4284367295 := by
  decide

/-- C5 (amended): for every non-negative `int` frequency `f`, with
`unsigned long` of 32 or 64 bits, the intermediate frequency handed to the
programming step is `f - 10600000` when `f ≥ 11700000`, `9750000 - f` when
`f < 9750000`, and `f - 9750000` otherwise; 12000000 gives 1400000, 9000000
gives 750000 and 10000000 gives 250000. -/
theorem real_frequency_nonneg (bits : Nat) (f : Int) (hb : bits = 32 ∨ bits = 64)
    (h0 : 0 ≤ f) (h1 : f < 2 ^ 31) :
    real_frequency bits f =
      (if f ≥ 11700000 then f - 10600000
       else if f < 9750000 then 9750000 - f
       else f - 9750000) ∧
    real_frequency bits 12000000 = 1400000 ∧
    real_frequency bits 9000000 = 750000 ∧
    real_frequency bits 10000000 = 250000 := by
  have h1b : f < 2147483648 := by norm_num at h1; exact h1
  rcases hb with rfl | rfl
  · refine ⟨?_, by decide, by decide, by decide⟩
    simp only [real_frequency, toULong, SLOF, LOF1, LOF2]
    norm_num
    split_ifs <;> omega
  · refine ⟨?_, by decide, by decide, by decide⟩
    simp only [real_frequency, toULong, SLOF, LOF1, LOF2]
    norm_num
    split_ifs <;> omega

/-- Instance of C5 (amended) at 11000000 with a 64-bit `unsigned long`. -/
theorem real_frequency_nonneg_witness :
    real_frequency 64 11000000 =
      (if (11000000 : Int) ≥ 11700000 then 11000000 - 10600000
       else if (11000000 : Int) < 9750000 then 9750000 - 11000000
       else 11000000 - 9750000) ∧
    real_frequency 64 12000000 = 1400000 ∧
    real_frequency 64 9000000 = 750000 ∧
    real_frequency 64 10000000 = 250000 :=
  real_frequency_nonneg 64 11000000 (Or.inr rfl) (by decide) (by decide)

/-- C7 (the code at the failing input): after a successful `tune` (frontend
3, DVR 5) and a `readTsStream` that lazily opened the demux handle (4),
`openDvbDemux` is reached again through `startSectionFilter(17, 0)` with the
handle open: it asks the provider, which hands out 9, and overwrites
`mDemuxFd` with 9. Descriptor 4 is then held nowhere: the following `reset`
never closes it, and closes 9 twice. -/
theorem openDvbDemux_overwrites_open_handle :
    tune sampleConfig World.init 500000000 "8VSB" 1000 sampleTuneEnv
        [tickLocked 100, tickLocked 200] = Outcome.returned 0 lockedWorld ∧
    (readTsStream sampleConfig lockedWorld 188 100 5 4 0 false 0).1 = 0 ∧
    demuxOpenWorld.dvb.mDemuxFd = 4 ∧
    (openDvbDemux demuxOpenWorld 9).1 = 0 ∧
    (openDvbDemux demuxOpenWorld 9).2.dvb.mDemuxFd = 9 ∧
    providerCalls (openDvbDemux demuxOpenWorld 9).2.log
      = providerCalls demuxOpenWorld.log + 1 ∧
    (startSectionFilter sampleConfig demuxOpenWorld 17 0 9 0).1 = 0 ∧
    (startSectionFilter sampleConfig demuxOpenWorld 17 0 9 0).2.dvb.mDemuxFd = 9 ∧
    providerCalls (startSectionFilter sampleConfig demuxOpenWorld 17 0 9 0).2.log
      = providerCalls demuxOpenWorld.log + 1 ∧
    handedOutCount 4 (reset (startSectionFilter sampleConfig demuxOpenWorld 17 0 9 0).2).log = 1 ∧
    closeCount 4 (reset (startSectionFilter sampleConfig demuxOpenWorld 17 0 9 0).2).log = 0 ∧
    handedOutCount 9 (reset (startSectionFilter sampleConfig demuxOpenWorld 17 0 9 0).2).log = 1 ∧
    closeCount 9 (reset (startSectionFilter sampleConfig demuxOpenWorld 17 0 9 0).2).log = 2 := by
  decide

/-! ## The polling loop -/

/-- The clock in binary64: with `tuneClock` taken at 1 s 70948 us and the loop
condition evaluated at 2 s 70948 us, the difference computed in doubles is
below 1000 (it is 1000 less 2 ^ (-42)), so the condition
`currentTimeMillis() - tuneClock < 1000` holds although exactly one second has
passed; one second after a whole second it does not hold. -/
theorem loopCondition_rounding :
    loopCondition (currentTimeMillis { tv_sec := 1, tv_usec := 70948 })
      { tv_sec := 2, tv_usec := 70948 } 1000 = true ∧
    (double.sub (currentTimeMillis { tv_sec := 2, tv_usec := 70948 })
      (currentTimeMillis { tv_sec := 1, tv_usec := 70948 })).scaled
      = 1000 * 2 ^ 62 - 2 ^ 20 ∧
    loopCondition (currentTimeMillis { tv_sec := 1000, tv_usec := 0 })
      { tv_sec := 1001, tv_usec := 0 } 1000 = false := by
  decide


theorem tuneDVB_lockLoop_eq (cfg : Config) (tuneClock : double) (timeout_ms dvrFromApi : Int)
    (ticks : List Tick) (w : World) (c : Int) :
    tuneDVB_lockLoop cfg tuneClock timeout_ms dvrFromApi w c ticks
      = tune_lockLoop cfg tuneClock timeout_ms dvrFromApi w c ticks := by
  induction ticks generalizing w c with
  | nil => rfl
  | cons t rest ih =>
    simp only [tuneDVB_lockLoop, tune_lockLoop, ih]

/-- If the loop is still running after the ticks `pre`, in state `w1` with count
`c1`, then on `pre ++ rest` it continues from there with `rest`. -/
theorem tune_lockLoop_append (cfg : Config) (tuneClock : double) (timeout_ms dvrFromApi : Int)
    (pre rest : List Tick) (w w1 : World) (c c1 : Int)
    (h : tune_lockLoop cfg tuneClock timeout_ms dvrFromApi w c pre = Outcome.running w1 c1) :
    tune_lockLoop cfg tuneClock timeout_ms dvrFromApi w c (pre ++ rest)
      = tune_lockLoop cfg tuneClock timeout_ms dvrFromApi w1 c1 rest := by
  induction pre generalizing w c with
  | nil =>
    simp only [tune_lockLoop, Outcome.running.injEq] at h
    obtain ⟨rfl, rfl⟩ := h
    rfl
  | cons t pre ih =>
    simp only [tune_lockLoop, List.cons_append] at h ⊢
    split_ifs at h ⊢ <;> exact ih _ _ h

/-- One in-time iteration that reads the flag as set returns 0, whatever the
state and the count at the loop head. -/
theorem tune_lockLoop_pending (cfg : Config) (tuneClock : double) (timeout_ms dvrFromApi : Int)
    (t : Tick) (rest : List Tick) (w : World) (c : Int)
    (hTime : loopCondition tuneClock t.now timeout_ms = true)
    (hFlag : (t.deliver w).dvb.mHasPendingTune = true) :
    tune_lockLoop cfg tuneClock timeout_ms dvrFromApi w c (t :: rest)
      = Outcome.returned 0
          { dvb := { (t.deliver w).dvb with mFeHasLock := true }, log := w.log } := by
  have hlog : (t.deliver w).log = w.log := by
    unfold Tick.deliver setHasPendingTune
    split <;> rfl
  simp only [tune_lockLoop, hTime, hFlag, if_true, hlog]

/-- C1: in `tune` and in `tuneDVB`, whatever ticks `pre` the polling loop has
consumed so far (any lock-status history, including none locked) as long as the
call is still in its loop, in state `w1`: if the next iteration begins before
the timeout has elapsed and reads the pending-tune flag as set, the call
returns 0, with `mFeHasLock = true` and with the log exactly as it was at the
start of that iteration, so the frontend is not polled again. -/
theorem pending_tune_returns_success (cfg : Config) (w : World) (frequency : Int)
    (modulationStr : String) (deliverysystem : Int) (polarizationStr : String)
    (symbolrate : Int) (fecStr : String) (timeout_ms : Int) (env : TuneEnv)
    (envD : TuneDvbEnv) (pre : List Tick) (t : Tick) (rest : List Tick) (w1 : World) (c1 : Int)
    (hFlag : (t.deliver w1).dvb.mHasPendingTune = true) :
    (tune cfg w frequency modulationStr timeout_ms env pre = Outcome.running w1 c1 →
      loopCondition (currentTimeMillis env.tuneClock) t.now timeout_ms = true →
      tune cfg w frequency modulationStr timeout_ms env (pre ++ t :: rest)
        = Outcome.returned 0
            { dvb := { (t.deliver w1).dvb with mFeHasLock := true }, log := w1.log }) ∧
    (tuneDVB cfg w deliverysystem frequency polarizationStr symbolrate fecStr modulationStr
        timeout_ms envD pre = Outcome.running w1 c1 →
      loopCondition (currentTimeMillis envD.tuneClock) t.now timeout_ms = true →
      tuneDVB cfg w deliverysystem frequency polarizationStr symbolrate fecStr modulationStr
        timeout_ms envD (pre ++ t :: rest)
        = Outcome.returned 0
            { dvb := { (t.deliver w1).dvb with mFeHasLock := true }, log := w1.log }) := by
  constructor
  · intro h hTime
    simp only [tune] at h ⊢
    split_ifs at h ⊢ <;>
    · rw [tune_lockLoop_append _ _ _ _ _ _ _ _ _ _ h]
      exact tune_lockLoop_pending _ _ _ _ _ _ _ _ hTime hFlag
  · intro h hTime
    simp only [tuneDVB] at h ⊢
    split at h
    · exact absurd h (by simp)
    · rw [tuneDVB_lockLoop_eq] at h ⊢
      rw [tune_lockLoop_append _ _ _ _ _ _ _ _ _ _ h]
      exact tune_lockLoop_pending _ _ _ _ _ _ _ _ hTime hFlag

/-- The value returned by `isFeLocked` depends on the frontend answer only. -/
theorem isFeLocked_fst (cfg : Config) (w : World) (s : FeSample) :
    (isFeLocked cfg w s).1 = lockStatus cfg s := by
  simp only [isFeLocked, lockStatus]
  split_ifs <;> rfl

/-- Running `isFeLocked` does not write the object. -/
theorem isFeLocked_dvb (cfg : Config) (w : World) (s : FeSample) :
    (isFeLocked cfg w s).2.dvb = w.dvb := by
  simp only [isFeLocked, World.emit]
  split_ifs <;> rfl

/-- A tick that does not deliver `setHasPendingTune(true)` leaves a clear flag
clear, and never writes `mFeHasLock`. -/
theorem deliver_flag_clear (t : Tick) (w : World) (ht : t.setHasPendingTune ≠ some true)
    (hw : w.dvb.mHasPendingTune = false) :
    (t.deliver w).dvb.mHasPendingTune = false ∧
    (t.deliver w).dvb.mFeHasLock = w.dvb.mFeHasLock := by
  unfold Tick.deliver
  cases hs : t.setHasPendingTune with
  | none => exact ⟨hw, rfl⟩
  | some b =>
    cases b with
    | false => exact ⟨rfl, rfl⟩
    | true => exact absurd hs ht

/-- Loop invariant: `lockSuccessCount` is the length `k` of the current run of
locked samples. If the flag is never set, every tick is in time and the run so
far followed by the samples to come holds no run of the threshold length, the
loop is still running after those ticks and has not written `mFeHasLock`. -/
theorem tune_lockLoop_no_run (cfg : Config) (tuneClock : double) (timeout_ms dvrFromApi : Int)
    (pre : List Tick) (w : World) (k : Nat)
    (hw : w.dvb.mHasPendingTune = false)
    (hk : (k : Int) < cfg.FE_CONSECUTIVE_LOCK_SUCCESS_COUNT)
    (hpre : ∀ x ∈ pre,
      loopCondition tuneClock x.now timeout_ms = true ∧
      x.setHasPendingTune ≠ some true)
    (hrun : ¬ (List.replicate cfg.FE_CONSECUTIVE_LOCK_SUCCESS_COUNT.toNat true <:+:
      List.replicate k true ++ pre.map (fun x => lockStatus cfg x.fe))) :
    ∃ w1 c1, tune_lockLoop cfg tuneClock timeout_ms dvrFromApi w k pre = Outcome.running w1 c1 ∧
      w1.dvb.mFeHasLock = w.dvb.mFeHasLock := by
  induction pre generalizing w k with
  | nil => exact ⟨w, k, rfl, rfl⟩
  | cons x pre ih =>
    obtain ⟨hx1, hx2⟩ := hpre x (List.mem_cons_self _ _)
    obtain ⟨hd1, hd2⟩ := deliver_flag_clear x w hx2 hw
    have hrest : ∀ y ∈ pre,
        loopCondition tuneClock y.now timeout_ms = true ∧
        y.setHasPendingTune ≠ some true := fun y hy => hpre y (List.mem_cons_of_mem _ hy)
    have hflag : (isFeLocked cfg (x.deliver w) x.fe).2.dvb.mHasPendingTune = false := by
      rw [isFeLocked_dvb]; exact hd1
    simp only [tune_lockLoop, hx1, if_true, hd1, isFeLocked_fst, Bool.false_eq_true, if_false]
    by_cases hl : lockStatus cfg x.fe = true
    · simp only [hl, if_true]
      have hk1 : ((k + 1 : Nat) : Int) < cfg.FE_CONSECUTIVE_LOCK_SUCCESS_COUNT := by
        by_contra hc
        have hN : cfg.FE_CONSECUTIVE_LOCK_SUCCESS_COUNT.toNat = k + 1 := by omega
        apply hrun
        rw [hN, List.map_cons, hl]
        refine ⟨[], pre.map (fun x => lockStatus cfg x.fe), ?_⟩
        simp [List.replicate_succ']
      have hnot : ¬ ((k : Int) + 1 ≥ cfg.FE_CONSECUTIVE_LOCK_SUCCESS_COUNT) := by
        push_cast at hk1; omega
      rw [if_neg hnot]
      have hrun1 : ¬ (List.replicate cfg.FE_CONSECUTIVE_LOCK_SUCCESS_COUNT.toNat true <:+:
          List.replicate (k + 1) true ++ pre.map (fun x => lockStatus cfg x.fe)) := by
        intro hc
        apply hrun
        rw [List.map_cons, hl]
        simpa [List.replicate_succ'] using hc
      obtain ⟨w1, c1, h1, h2⟩ := ih _ (k + 1) hflag hk1 hrest hrun1
      refine ⟨w1, c1, ?_, ?_⟩
      · push_cast at h1; exact h1
      · rw [h2, isFeLocked_dvb, hd2]
    · simp only [hl, Bool.false_eq_true, if_false]
      have hk0 : ((0 : Nat) : Int) < cfg.FE_CONSECUTIVE_LOCK_SUCCESS_COUNT := by
        push_cast; omega
      have hnot : ¬ ((0 : Int) ≥ cfg.FE_CONSECUTIVE_LOCK_SUCCESS_COUNT) := by
        push_cast at hk0; omega
      rw [if_neg hnot]
      have hrun0 : ¬ (List.replicate cfg.FE_CONSECUTIVE_LOCK_SUCCESS_COUNT.toNat true <:+:
          List.replicate 0 true ++ pre.map (fun x => lockStatus cfg x.fe)) := by
        intro hc
        apply hrun
        refine List.IsInfix.trans hc (List.IsSuffix.isInfix ?_)
        rw [List.map_cons]
        simp only [List.replicate_zero, List.nil_append]
        exact (List.suffix_cons _ _).trans (List.suffix_append _ _)
      obtain ⟨w1, c1, h1, h2⟩ := ih _ 0 hflag hk0 hrest hrun0
      refine ⟨w1, c1, ?_, ?_⟩
      · push_cast at h1; exact h1
      · rw [h2, isFeLocked_dvb, hd2]

/-- Effect of `resetExceptFe` on the two flags. -/
theorem resetExceptFe_flags (w : World) :
    (resetExceptFe w).dvb.mHasPendingTune = w.dvb.mHasPendingTune ∧
    (resetExceptFe w).dvb.mFeHasLock = false := by
  simp only [resetExceptFe, closePatFilter, closeAllDvbPidFilter, closeDvbDemux, closeDvbDvr]
  split_ifs <;> exact ⟨rfl, rfl⟩

/-- Running `openDvbFe` writes neither flag. -/
theorem openDvbFe_flags (w : World) (fromApi : Int) :
    (openDvbFe w fromApi).2.dvb.mHasPendingTune = w.dvb.mHasPendingTune ∧
    (openDvbFe w fromApi).2.dvb.mFeHasLock = w.dvb.mFeHasLock := by
  simp only [openDvbFe, openDvbFeFromSystemApi, World.emit]
  split_ifs <;> exact ⟨rfl, rfl⟩

/-- Running `tuneV5` does not write the object. -/
theorem tuneV5_flags (w : World) (ifreq sr : Int) (delsys : fe_delivery_system)
    (modulation : fe_modulation) (v : fe_sec_voltage) (fec : fe_code_rate)
    (rolloff : fe_rolloff) (staleEvents : Nat) (setPropertyResult : Int) :
    (tuneV5 w ifreq sr delsys modulation v fec rolloff staleEvents
      setPropertyResult).2.dvb = w.dvb := by
  simp only [tuneV5, World.emit]
  split_ifs <;> rfl

/-- Running `clearDvbCmdSeq` does not write the object. -/
theorem clearDvbCmdSeq_flags (w : World) (result : Int) :
    (clearDvbCmdSeq w result).2.dvb = w.dvb := by
  simp only [clearDvbCmdSeq, World.emit]
  split_ifs <;> rfl

/-- The loop entered with a clear flag and `mFeHasLock = false`, fed in-time
ticks without a run of the threshold length and then an out-of-time tick, is
still running after the in-time ticks and returns -1 at the out-of-time one,
in the state it had at that loop head, with `mFeHasLock = false`. -/
theorem tune_lockLoop_timeout (cfg : Config) (tuneClock : double) (timeout_ms dvrFromApi : Int)
    (pre : List Tick) (t : Tick) (rest : List Tick) (w : World)
    (hw : w.dvb.mHasPendingTune = false) (hl : w.dvb.mFeHasLock = false)
    (hpre : ∀ x ∈ pre,
      loopCondition tuneClock x.now timeout_ms = true ∧
      x.setHasPendingTune ≠ some true)
    (hrun : ¬ (List.replicate cfg.FE_CONSECUTIVE_LOCK_SUCCESS_COUNT.toNat true <:+:
      pre.map (fun x => lockStatus cfg x.fe)))
    (ht : ¬ (loopCondition tuneClock t.now timeout_ms = true)) :
    ∃ w1 c1, tune_lockLoop cfg tuneClock timeout_ms dvrFromApi w 0 pre = Outcome.running w1 c1 ∧
      tune_lockLoop cfg tuneClock timeout_ms dvrFromApi w 0 (pre ++ t :: rest)
        = Outcome.returned (-1) w1 ∧
      w1.dvb.mFeHasLock = false := by
  have hN : ((0 : Nat) : Int) < cfg.FE_CONSECUTIVE_LOCK_SUCCESS_COUNT := by
    by_contra hc
    apply hrun
    have h0 : cfg.FE_CONSECUTIVE_LOCK_SUCCESS_COUNT.toNat = 0 := by
      push_cast at hc; omega
    rw [h0]
    exact ⟨[], _, rfl⟩
  obtain ⟨w1, c1, h1, h2⟩ := tune_lockLoop_no_run cfg tuneClock timeout_ms dvrFromApi pre w 0
    hw hN hpre (by simpa using hrun)
  have h1b : tune_lockLoop cfg tuneClock timeout_ms dvrFromApi w 0 pre
      = Outcome.running w1 c1 := by
    push_cast at h1; exact h1
  refine ⟨w1, c1, h1b, ?_, by rw [h2, hl]⟩
  rw [tune_lockLoop_append _ _ _ _ _ _ _ _ _ _ h1b]
  simp only [tune_lockLoop, if_neg ht]

/-- C2: in `tune` and in `tuneDVB`, when the pending-tune flag is clear at the
call and never set during it, the frontend was opened and programmed
successfully, and the lock-status samples `pre` seen by the iterations whose
loop condition holds contain no run of `FE_CONSECUTIVE_LOCK_SUCCESS_COUNT`
consecutive locked samples, then the call is still polling after those
iterations (in a state `w1`), and at the first evaluation of the loop
condition that fails (the timeout has elapsed) it returns -1 in that same
state, in which `mFeHasLock` is false. -/
theorem lock_timeout_returns_failure (cfg : Config) (w : World) (frequency : Int)
    (modulationStr : String) (deliverysystem : Int) (polarizationStr : String)
    (symbolrate : Int) (fecStr : String) (timeout_ms : Int) (env : TuneEnv)
    (envD : TuneDvbEnv) (pre : List Tick) (t : Tick) (rest : List Tick)
    (hw : w.dvb.mHasPendingTune = false)
    (hflags : ∀ x ∈ pre, x.setHasPendingTune ≠ some true)
    (hrun : ¬ (List.replicate cfg.FE_CONSECUTIVE_LOCK_SUCCESS_COUNT.toNat true <:+:
      pre.map (fun x => lockStatus cfg x.fe))) :
    (modulationStr = "8VSB" ∨ modulationStr = "QAM256" →
      (openDvbFe (resetExceptFe w) env.feFromApi).1 = 0 →
      env.setFrontendResult = 0 →
      (∀ x ∈ pre, loopCondition (currentTimeMillis env.tuneClock) x.now timeout_ms = true) →
      ¬ (loopCondition (currentTimeMillis env.tuneClock) t.now timeout_ms = true) →
      ∃ w1 c1,
        tune cfg w frequency modulationStr timeout_ms env pre = Outcome.running w1 c1 ∧
        tune cfg w frequency modulationStr timeout_ms env (pre ++ t :: rest)
          = Outcome.returned (-1) w1 ∧
        w1.dvb.mFeHasLock = false) ∧
    ((openDvbFe (resetExceptFe w) envD.feFromApi).1 = 0 →
      envD.setPropertyResult ≠ -1 →
      (∀ x ∈ pre, loopCondition (currentTimeMillis envD.tuneClock) x.now timeout_ms = true) →
      ¬ (loopCondition (currentTimeMillis envD.tuneClock) t.now timeout_ms = true) →
      ∃ w1 c1,
        tuneDVB cfg w deliverysystem frequency polarizationStr symbolrate fecStr
          modulationStr timeout_ms envD pre = Outcome.running w1 c1 ∧
        tuneDVB cfg w deliverysystem frequency polarizationStr symbolrate fecStr
          modulationStr timeout_ms envD (pre ++ t :: rest)
          = Outcome.returned (-1) w1 ∧
        w1.dvb.mFeHasLock = false) := by
  have hr := resetExceptFe_flags w
  have hp : ¬ ((resetExceptFe w).dvb.mHasPendingTune = true) := by
    rw [hr.1, hw]; simp
  constructor
  · intro hmod hfe hset hpre ht
    have ho := openDvbFe_flags (resetExceptFe w) env.feFromApi
    have hnm : ¬ (modulationStr ≠ "8VSB" ∧ modulationStr ≠ "QAM256") := by
      rintro ⟨h1, h2⟩
      rcases hmod with h | h
      · exact h1 h
      · exact h2 h
    simp only [tune, if_neg hnm, if_neg hp, hfe, hset, ne_eq, not_true_eq_false, if_false]
    apply tune_lockLoop_timeout
    · simp only [World.emit]
      rw [ho.1, hr.1, hw]
    · simp only [World.emit]
      rw [ho.2, hr.2]
    · exact fun x hx => ⟨hpre x hx, hflags x hx⟩
    · exact hrun
    · exact ht
  · intro hfe _ hpre ht
    have ho := openDvbFe_flags (resetExceptFe w) envD.feFromApi
    simp only [tuneDVB, tuneDVB_program, if_neg hp, hfe, ne_eq, not_true_eq_false, if_false,
      tuneDVB_lockLoop_eq]
    apply tune_lockLoop_timeout
    · rw [tuneV5_flags, clearDvbCmdSeq_flags, ho.1, hr.1, hw]
    · rw [tuneV5_flags, clearDvbCmdSeq_flags, ho.2, hr.2]
    · exact fun x hx => ⟨hpre x hx, hflags x hx⟩
    · exact hrun
    · exact ht

/-- Instance of C1: after the four ticks of `sampleTicks` both calls are still
polling; a fifth tick that delivers `setHasPendingTune(true)` makes each return
0 with `mFeHasLock = true` and the log of the first four iterations. -/
theorem pending_tune_returns_success_witness :
    ((tickPending 500).deliver sampleLoopWorld).dvb.mHasPendingTune = true ∧
    ((tickPending 500).deliver sampleDvbLoopWorld).dvb.mHasPendingTune = true ∧
    tune sampleConfig World.init 500000000 "8VSB" 1000 sampleTuneEnv
        (sampleTicks ++ tickPending 500 :: [tickLocked 600])
      = Outcome.returned 0
          { dvb := { ((tickPending 500).deliver sampleLoopWorld).dvb with mFeHasLock := true },
            log := sampleLoopWorld.log } ∧
    tuneDVB sampleConfig World.init 2 12000000 "v" 27500000 "5/6" "QPSK" 1000 sampleTuneDvbEnv
        (sampleTicks ++ tickPending 500 :: [tickLocked 600])
      = Outcome.returned 0
          { dvb := { ((tickPending 500).deliver sampleDvbLoopWorld).dvb with mFeHasLock := true },
            log := sampleDvbLoopWorld.log } :=
  ⟨by decide, by decide,
   (pending_tune_returns_success sampleConfig World.init 500000000 "8VSB" 2 "v" 27500000 "5/6"
      1000 sampleTuneEnv sampleTuneDvbEnv sampleTicks (tickPending 500) [tickLocked 600]
      sampleLoopWorld 1 (by decide)).1 (by decide) (by decide),
   (pending_tune_returns_success sampleConfig World.init 12000000 "QPSK" 2 "v" 27500000 "5/6"
      1000 sampleTuneEnv sampleTuneDvbEnv sampleTicks (tickPending 500) [tickLocked 600]
      sampleDvbLoopWorld 1 (by decide)).2 (by decide) (by decide)⟩

/-- Instance of C2: with `sampleTicks` (no two consecutive locked samples,
threshold 2) followed by a tick at the 1000 ms deadline, both calls are still
polling after the four ticks and return -1 at the fifth, with
`mFeHasLock = false`. -/
theorem lock_timeout_returns_failure_witness :
    World.init.dvb.mHasPendingTune = false ∧
    (∀ x ∈ sampleTicks, x.setHasPendingTune ≠ some true) ∧
    ¬ (List.replicate sampleConfig.FE_CONSECUTIVE_LOCK_SUCCESS_COUNT.toNat true <:+:
      sampleTicks.map (fun x => lockStatus sampleConfig x.fe)) ∧
    (∃ w1 c1,
      tune sampleConfig World.init 500000000 "8VSB" 1000 sampleTuneEnv sampleTicks
        = Outcome.running w1 c1 ∧
      tune sampleConfig World.init 500000000 "8VSB" 1000 sampleTuneEnv
        (sampleTicks ++ tickLocked 1000000 :: [tickLocked 1000100])
        = Outcome.returned (-1) w1 ∧ w1.dvb.mFeHasLock = false) ∧
    (∃ w1 c1,
      tuneDVB sampleConfig World.init 2 12000000 "v" 27500000 "5/6" "QPSK" 1000
        sampleTuneDvbEnv sampleTicks = Outcome.running w1 c1 ∧
      tuneDVB sampleConfig World.init 2 12000000 "v" 27500000 "5/6" "QPSK" 1000
        sampleTuneDvbEnv (sampleTicks ++ tickLocked 1000000 :: [tickLocked 1000100])
        = Outcome.returned (-1) w1 ∧ w1.dvb.mFeHasLock = false) :=
  ⟨by decide, by decide, by decide,
   (lock_timeout_returns_failure sampleConfig World.init 500000000 "8VSB" 2 "v" 27500000 "5/6"
      1000 sampleTuneEnv sampleTuneDvbEnv sampleTicks (tickLocked 1000000) [tickLocked 1000100]
      (by decide) (by decide) (by decide)).1 (Or.inl rfl) (by decide) (by decide) (by decide)
      (by decide),
   (lock_timeout_returns_failure sampleConfig World.init 12000000 "QPSK" 2 "v" 27500000 "5/6"
      1000 sampleTuneEnv sampleTuneDvbEnv sampleTicks (tickLocked 1000000) [tickLocked 1000100]
      (by decide) (by decide) (by decide)).2 (by decide) (by decide) (by decide) (by decide)⟩

/-- C6 (the code at the failing input): a `tuneDVB` call on a fresh object in
which `tuneV5` returns -1 because the driver rejects `FE_SET_PROPERTY` still
enters the polling loop; with two locked samples it returns 0 with
`mFeHasLock = true` and the DVR opened, and with the pending-tune flag set at
the first iteration it returns 0 with `mFeHasLock = true`. -/
theorem tuneDVB_ignores_tuneV5_failure :
    (∃ w1, tuneDVB_program sampleConfig World.init 2 12000000 "v" 27500000 "5/6" "QPSK"
      failingTuneDvbEnv = Except.ok (-1, w1)) ∧
    (∃ wf, tuneDVB sampleConfig World.init 2 12000000 "v" 27500000 "5/6" "QPSK" 1000
        failingTuneDvbEnv [tickLocked 100, tickLocked 200] = Outcome.returned 0 wf ∧
      wf.dvb.mFeHasLock = true ∧ wf.dvb.mDvrFd = 5) ∧
    (∃ wf, tuneDVB sampleConfig World.init 2 12000000 "v" 27500000 "5/6" "QPSK" 1000
        failingTuneDvbEnv [tickPending 100] = Outcome.returned 0 wf ∧
      wf.dvb.mFeHasLock = true) := by
  refine ⟨⟨_, rfl⟩, ⟨_, rfl, by decide, by decide⟩, ⟨_, rfl, by decide⟩⟩

/-- C8 (the code at the failing input): on a fresh object,
`startSectionFilter(17, 0)` with the provider handing out descriptor 4 stores 4
both in `mDemuxFd` and in the filter table, and the following `reset` closes
descriptor 4 twice although it was handed out once. Two
`startSectionFilter(PAT_PID, 0)` calls handing out 4 and then 9, followed by
`reset`, close 9 twice and never close 4. -/
theorem startSectionFilter_reset_double_close :
    (startSectionFilter sampleConfig World.init 17 0 4 0).1 = 0 ∧
    (reset (startSectionFilter sampleConfig World.init 17 0 4 0).2).log =
      [ Event.CallIntMethod JavaMethod.openDvbDemuxFd 4,
        Event.fcntl_GETFL 4,
        Event.fcntl_SETFL 4,
        Event.ioctl 4 (Request.DMX_SET_FILTER { pid := 17, filter0 := 0, mask0 := 0 }),
        Event.close 4,
        Event.close 4 ] ∧
    handedOutCount 4 (reset (startSectionFilter sampleConfig World.init 17 0 4 0).2).log = 1 ∧
    closeCount 4 (reset (startSectionFilter sampleConfig World.init 17 0 4 0).2).log = 2 ∧
    handedOutCount 4 (reset (startSectionFilter sampleConfig
      (startSectionFilter sampleConfig World.init 0 0 4 0).2 0 0 9 0).2).log = 1 ∧
    closeCount 4 (reset (startSectionFilter sampleConfig
      (startSectionFilter sampleConfig World.init 0 0 4 0).2 0 0 9 0).2).log = 0 ∧
    handedOutCount 9 (reset (startSectionFilter sampleConfig
      (startSectionFilter sampleConfig World.init 0 0 4 0).2 0 0 9 0).2).log = 1 ∧
    closeCount 9 (reset (startSectionFilter sampleConfig
      (startSectionFilter sampleConfig World.init 0 0 4 0).2 0 0 9 0).2).log = 2 := by
  decide

end Dvb
